import Mathlib

/-
  Verification development for CloudHunter (cloudhunter.py, v0.7.0).

  Shallow embedding of the discovery-and-classification engine:
  the bucket classifier (Bucket.process_status), the ACL dispatch
  (Bucket.get_rights) and AWS ACL parser (Bucket._aws_acl), the
  permutation generator (generate_permutations), the worker step
  (search_buckets_worker, one queue item), the crawler aggregation
  (HiddenGems.list_urls and friends) and the fingerprint name
  derivation (what_cloud_worker).

  Python string primitives (substring test, split, startswith, sort
  order) are modelled over List Char with code-point semantics, which
  coincides with CPython for the inputs exercised here.
-/

namespace CloudHunter

/-- Models Python list-of-chars prefix test: true when the first list is a
leading segment of the second. -/
def isPre : List Char → List Char → Bool
  | [], _ => true
  | _ :: _, [] => false
  | a :: as, b :: bs => a == b && isPre as bs

/-- Models the Python substring operator pat in s over char lists:
some position of s starts with pat. -/
def containsSub : List Char → List Char → Bool
  | [], pat => isPre pat []
  | c :: rest, pat => isPre pat (c :: rest) || containsSub rest pat

/-- Models the Python substring test pat in s on strings. -/
def strContains (s pat : String) : Bool :=
  containsSub s.data pat.data

/-- Models Python str.startswith. -/
def pyStarts (s pre : String) : Bool :=
  isPre pre.data s.data

/-- Models Python str.split(sep) with a one-character separator, over
char lists; always returns at least one (possibly empty) piece. -/
def splitChar (sep : Char) (l : List Char) : List (List Char) :=
  l.foldr
    (fun c acc =>
      match acc with
      | [] => [[c]]
      | cur :: done => if c == sep then [] :: cur :: done else (c :: cur) :: done)
    [[]]

/-- Models Python str.split(sep) with a one-character separator. -/
def pySplit (s : String) (sep : Char) : List String :=
  (splitChar sep s.data).map fun l => String.mk l

/-- Models Python string comparison (code-point lexicographic, as used by
list.sort on strings): less-or-equal. -/
def lexLe : List Char → List Char → Bool
  | [], _ => true
  | _ :: _, [] => false
  | a :: as, b :: bs => if a == b then lexLe as bs else decide (a.toNat < b.toNat)

/-- Models Python string less-or-equal. -/
def pyStrLe (a b : String) : Bool :=
  lexLe a.data b.data

/-- Insert step of insertion sort with respect to pyStrLe. -/
def pyInsert (x : String) : List String → List String
  | [] => [x]
  | y :: ys => if pyStrLe x y then x :: y :: ys else y :: pyInsert x ys

/-- Models Python list.sort() on a list of strings (ascending by
code-point order). -/
def pySort (l : List String) : List String :=
  l.foldr pyInsert []

/-- Boolean check that a list of strings is ascending for pyStrLe. -/
def isSortedB : List String → Bool
  | [] => true
  | [_] => true
  | a :: b :: rest => pyStrLe a b && isSortedB (b :: rest)

/-- Accessibility state of a probed candidate (class State of the source). -/
inductive State where
  | CLOSE
  | DOMAIN
  | PRIVATE
  | OPEN
  | UNKNOWN
deriving DecidableEq, Repr

/-- Risk level of a probed candidate (class Risk of the source; the numeric
values of the Python enum are only terminal color codes). -/
inductive Risk where
  | LOW
  | MEDIUM
  | HIGH
deriving DecidableEq, Repr

/-- A probed candidate (class Bucket of the source): identification fields
plus the mutable classification state. -/
structure Bucket where
  name : String
  domain : String
  cloud : String
  srv_name : String
  state : State
  risk : Risk
  details : List String
deriving DecidableEq, Repr

/-- Bucket.__init__: fresh bucket, state CLOSE, risk LOW, no details. -/
def mkBucket (name domain cloud srv_name : String) : Bucket :=
  { name := name, domain := domain, cloud := cloud, srv_name := srv_name, state := State.CLOSE, risk := Risk.LOW, details := [] }

/-- The data read from a requests response by Bucket.process_status:
status code, the Content-Type header when present, the status codes of the
redirect history hops, and the final URL. -/
structure Response where
  status_code : Nat
  contentType : Option String
  history : List Nat
  url : String
deriving DecidableEq, Repr

/-- Models the guard if content_type and application/xml in content_type
of process_status: the header is present, non-empty (Python truthiness)
and contains the substring application/xml. -/
def contentTypeHasXml : Option String → Bool
  | none => false
  | some ct => if ct = "" then false else strContains ct "application/xml"

/-- Lines 86-105 of Bucket.process_status: the seed-name risk bump followed
by the status-code switch. -/
def statusPart (baseName : String) (b0 : Bucket) (r : Response) : Bucket :=
  let b := if b0.name = baseName then { b0 with risk := Risk.MEDIUM } else b0
  if r.status_code = 200 then
    if contentTypeHasXml r.contentType then
      { b with state := State.OPEN, risk := Risk.HIGH, details := b.details ++ ["LIST"] }
    else
      { b with state := State.OPEN, risk := Risk.MEDIUM }
  else if r.status_code = 400 ∨ r.status_code = 401 ∨ r.status_code = 403 then
    { b with state := State.PRIVATE }
  else if r.status_code = 500 ∨ r.status_code = 502 ∨ r.status_code = 503 then
    { b with state := State.OPEN, risk := Risk.MEDIUM, details := b.details ++ ["WebApp Error"] }
  else
    { b with state := State.UNKNOWN, risk := Risk.MEDIUM, details := b.details ++ ["Response: " ++ toString r.status_code] }

/-- Lines 107-111 of Bucket.process_status: when the first redirect hop was
a 301/302, record the final URL and, when that URL looks like an
authentication page, force PRIVATE and LOW. -/
def redirectPart (r : Response) (b : Bucket) : Bucket :=
  if r.history ≠ [] ∧ (r.history.headD 0 = 301 ∨ r.history.headD 0 = 302) then
    if strContains r.url "login" = true ∨ strContains r.url "signin" = true then
      { b with details := b.details ++ ["Redirect " ++ r.url], state := State.PRIVATE, risk := Risk.LOW }
    else
      { b with details := b.details ++ ["Redirect " ++ r.url] }
  else b

/-- The combined condition under which redirectPart overrides the
classification to PRIVATE and LOW. -/
def redirectLogin (r : Response) : Bool :=
  if r.history ≠ [] ∧ (r.history.headD 0 = 301 ∨ r.history.headD 0 = 302) then
    if strContains r.url "login" = true ∨ strContains r.url "signin" = true then
      true
    else false
  else false

/-- Bucket.process_status (lines 81-111): a failed HTTP probe (response ==
False, modelled as none) sets state DOMAIN and returns at once; otherwise
the status switch runs followed by the redirect override.  The concluding
self.get_rights() call performs network ACL enumeration and is modelled
separately by get_rights and aws_acl. -/
def processStatus (baseName : String) (b : Bucket) : Option Response → Bucket
  | none => { b with state := State.DOMAIN }
  | some r => redirectPart r (statusPart baseName b r)

/-- One queue item of search_buckets_worker (lines 443-463), with the two
network probes supplied as oracle inputs: dnsOk is the check_dns result and
httpResult the check_host result (none models the False marker).  Returns
the bucket appended to the shared result list, or none when the worker
skips the candidate. -/
def worker_step (srv_name domain name cloud baseName : String)
    (dnsOk : Bool) (httpResult : Option Response) : Option Bucket :=
  if dnsOk then
    if httpResult.isSome ∨ cloud = "azure" then
      some (processStatus baseName (mkBucket name domain cloud srv_name) httpResult)
    else
      none
  else
    none

/-- generate_permutations (lines 387-398); the affix file is modelled as
the list of its lines, as produced by f.read().splitlines(). -/
def generate_permutations (base_name : String) (lines : List String) : List String :=
  lines.foldl
    (fun p affix =>
      p ++ [affix ++ "-" ++ base_name, affix ++ "." ++ base_name, affix ++ base_name]
        ++ [base_name ++ "-" ++ affix, base_name ++ "." ++ affix, base_name ++ affix])
    [base_name]

/-- Which provider ACL enumerator Bucket.get_rights invokes. -/
inductive AclAction where
  | skip
  | azure
  | google
  | aws
deriving DecidableEq, Repr

/-- Bucket.get_rights (lines 122-131): azure is dispatched unconditionally;
any other cloud is dispatched only when the state is OPEN, and only google
and aws have an enumerator. -/
def get_rights (cloud : String) (state : State) : AclAction :=
  if cloud = "azure" then AclAction.azure
  else if state ≠ State.OPEN then AclAction.skip
  else if cloud = "google" then AclAction.google
  else if cloud = "aws" then AclAction.aws
  else AclAction.skip

/-- One Grant element of a parsed AWS ACL XML document (as produced by
xmltodict): the grantee xsi:type attribute, the optional DisplayName, the
group URI, the canonical ID, and the Permission value. -/
structure Grant where
  xsiType : String
  displayName : Option String
  uri : String
  id : String
  permission : String
deriving DecidableEq, Repr

/-- Lines 199-204 of Bucket._aws_acl: the grantee key is the display name
for canonical users carrying one, the last URI path segment for group
grants, else the first eight characters of the grantee ID. -/
def grantee_user (g : Grant) : String :=
  if g.xsiType = "CanonicalUser" ∧ g.displayName.isSome then g.displayName.getD ""
  else if g.xsiType = "Group" then (pySplit g.uri '/').getLastD ""
  else g.id.take 8

/-- The Permission values Bucket._aws_acl has a branch for. -/
def knownPerms : List String :=
  ["READ", "READ_ACP", "WRITE", "WRITE_ACL", "FULL_CONTROL"]

/-- Lines 206-213 of Bucket._aws_acl, symbol assignment: the symb variable
is only assigned when the Permission is recognized; any other Permission
leaves the variable holding whatever the previous iteration assigned
(none when no iteration assigned it yet). -/
def permSymb (perm : String) (symb : Option String) : Option String :=
  if perm = "READ" ∨ perm = "READ_ACP" then some "R"
  else if perm = "WRITE" ∨ perm = "WRITE_ACL" then some "W"
  else if perm = "FULL_CONTROL" then some "F"
  else symb

/-- Lines 206-213 of Bucket._aws_acl, risk assignment: WRITE, WRITE_ACL and
FULL_CONTROL raise the risk to HIGH, every other Permission leaves it. -/
def permRisk (perm : String) (risk : Risk) : Risk :=
  if perm = "WRITE" ∨ perm = "WRITE_ACL" then Risk.HIGH
  else if perm = "FULL_CONTROL" then Risk.HIGH
  else risk

/-- Python dict lookup on the insertion-ordered rights dict, modelled as an
association list. -/
def lookupA : List (String × String) → String → Option String
  | [], _ => none
  | (k, v) :: rest, u => if k = u then some v else lookupA rest u

/-- Lines 217-218 of Bucket._aws_acl: append the symbol to an existing
grantee entry unless it is already contained in it. -/
def updateA : List (String × String) → String → String → List (String × String)
  | [], _, _ => []
  | (k, v) :: rest, u, s =>
    if k = u then
      if strContains v s then (k, v) :: rest else (k, v ++ s) :: rest
    else (k, v) :: updateA rest u s

/-- The for-loop of Bucket._aws_acl (lines 198-218) over the grant list,
threading the symb variable (none while still unassigned), the rights dict
and the risk.  Reading symb while unassigned raises UnboundLocalError,
modelled as the none result. -/
def aws_acl_loop : List Grant → Option String → List (String × String) → Risk → Option (List (String × String) × Risk)
  | [], _, rights, risk => some (rights, risk)
  | g :: rest, symb, rights, risk =>
    match permSymb g.permission symb with
    | none => none
    | some s =>
      aws_acl_loop rest (some s)
        (if (lookupA rights (grantee_user g)).isNone
         then rights ++ [(grantee_user g, s)]
         else updateA rights (grantee_user g) s)
        (permRisk g.permission risk)

/-- Bucket._aws_acl (lines 194-221) given the parsed grant list: run the
accumulation loop, then emit one detail line per grantee in dict insertion
order; none models the UnboundLocalError escape. -/
def aws_acl (grants : List Grant) (b : Bucket) : Option Bucket :=
  match aws_acl_loop grants none [] b.risk with
  | none => none
  | some (rights, risk) =>
    some { b with risk := risk, details := b.details ++ rights.map fun p => p.1 ++ " [" ++ p.2 ++ "]" }

/-- Defined from the claim: the symbol for a recognized Permission
(READ and READ_ACP give R, WRITE and WRITE_ACL give W, FULL_CONTROL
gives F). -/
def claimSymbol (perm : String) : String :=
  if perm = "READ" ∨ perm = "READ_ACP" then "R"
  else if perm = "WRITE" ∨ perm = "WRITE_ACL" then "W"
  else "F"

/-- Defined from the claim: accumulate one symbol string per grantee in
discovery order, appending a symbol only when not already present for that
grantee. -/
def claimAccum : List Grant → List (String × String) → List (String × String)
  | [], rights => rights
  | g :: rest, rights =>
    claimAccum rest
      (if (lookupA rights (grantee_user g)).isNone
       then rights ++ [(grantee_user g, claimSymbol g.permission)]
       else updateA rights (grantee_user g) (claimSymbol g.permission))

/-- Defined from the claim: the risk after scanning the grant list, raised
to HIGH by any write-capable grant. -/
def claimRisk : List Grant → Risk → Risk
  | [], risk => risk
  | g :: rest, risk => claimRisk rest (permRisk g.permission risk)

/-- Result of urllib.parse.urlparse restricted to the components the
source reads: scheme, netloc, path and query. -/
structure ParsedUrl where
  scheme : String
  netloc : String
  path : String
  query : String
deriving DecidableEq, Repr

/-- Split a char list at the first occurrence of a pattern; none when the
pattern does not occur. -/
def splitFirst : List Char → List Char → Option (List Char × List Char)
  | [], pat => if isPre pat [] then some ([], []) else none
  | c :: rest, pat =>
    if isPre pat (c :: rest) then some ([], (c :: rest).drop pat.length)
    else
      match splitFirst rest pat with
      | some (a, b) => some (c :: a, b)
      | none => none

/-- Models urllib.parse.urlparse for the URLs the crawler handles: an
absolute http(s) URL is split into scheme, netloc (up to the first slash
or question mark), path and query; a string without a scheme separator
keeps everything in path and query, as urlparse does for relative
references without fragments or userinfo. -/
def urlparse (url : String) : ParsedUrl :=
  match splitFirst url.data "://".data with
  | some (sch, rest) =>
    let netloc := rest.takeWhile fun c => !(c == '/' || c == '?')
    let rest2 := rest.drop netloc.length
    let path := rest2.takeWhile fun c => !(c == '?')
    let query := rest2.drop (path.length + 1)
    { scheme := String.mk sch, netloc := String.mk netloc, path := String.mk path, query := String.mk query }
  | none =>
    let path := url.data.takeWhile fun c => !(c == '?')
    let query := url.data.drop (path.length + 1)
    { scheme := "", netloc := "", path := String.mk path, query := String.mk query }

/-- Join path segments back with slashes. -/
def joinSegs : List String → String
  | [] => ""
  | s :: rest => rest.foldl (fun acc x => acc ++ "/" ++ x) s

/-- Models urllib.parse.urljoin for the cases the crawler exercises: a src
carrying its own scheme is returned unchanged, a root-relative src is
attached to the scheme and netloc of the base, and any other src replaces
the last path segment of the base (no dot-segment resolution, which the
inputs used here never need). -/
def urljoin (base src : String) : String :=
  let s := urlparse src
  if s.scheme ≠ "" then src
  else
    let b := urlparse base
    if pyStarts src "/" then b.scheme ++ "://" ++ b.netloc ++ src
    else b.scheme ++ "://" ++ b.netloc ++ joinSegs ((pySplit b.path '/').dropLast) ++ "/" ++ src

/-- HiddenGems.normalize_url (lines 297-304) with the base URL passed
explicitly: resolve against the base, then rebuild scheme, netloc and path,
keeping the query only when full_query is set and the query is non-empty. -/
def normalize_url (base_url src : String) (full_query : Bool) : String :=
  let url := urlparse (urljoin base_url src)
  if full_query ∧ url.query ≠ "" then
    url.scheme ++ "://" ++ url.netloc ++ url.path ++ "?" ++ url.query
  else
    url.scheme ++ "://" ++ url.netloc ++ url.path

/-- One node of the crawl tree (class HiddenGems): its directory-trimmed
base URL, its netloc, the extracted URL categories (the values of the urls
dict in insertion order) and the child nodes. -/
inductive CrawlNode where
  | mk (base_url : String) (domain : String) (urls : List (List String)) (childs : List CrawlNode)

mutual

/-- HiddenGems.list_urls (lines 313-328), with the iteration order of the
final Python list(set(...)) supplied as the so argument: CPython only
guarantees that the returned list is duplicate-free and has the same
members, its order being hash-dependent; any function with that property
is an admissible behavior.  Collect the http-prefixed URLs of all
categories, add the recursively collected child URLs (children are always
called with full_query left at its False default), optionally filter to
the own netloc, normalize against the own base URL, sort, then pass the
sorted list through the set. -/
def list_urls (so : List String → List String) : CrawlNode → Bool → Bool → List String
  | CrawlNode.mk base_url dom urls childs, scope, full_query =>
    let collected := (urls.foldr (fun l acc => l ++ acc) []).filter fun u => pyStarts u "http"
    let result := collected ++ list_urls_childs so childs scope
    let result := if scope then result.filter fun x => dom = (urlparse x).netloc else result
    so (pySort (result.map fun x => normalize_url base_url x full_query))

/-- The child traversal of HiddenGems.list_urls (line 320-321). -/
def list_urls_childs (so : List String → List String) : List CrawlNode → Bool → List String
  | [], _ => []
  | c :: cs, scope => list_urls so c scope false ++ list_urls_childs so cs scope

end

/-- HiddenGems.extract_links (lines 351-354) with the HTML parse modelled
as the list of href attribute values of the anchor tags in document order,
and the list(set(...)) iteration order supplied as so: each href is
normalized with full_query set. -/
def extract_links (so : List String → List String) (base_url : String) (hrefs : List String) : List String :=
  so (hrefs.map fun h => normalize_url base_url h true)

/-- Models Python hasattr(headers, name) on a requests response headers
mapping: header values are stored as items of the CaseInsensitiveDict,
never as attributes of the Python object, so attribute lookup by header
name always fails. -/
def headers_hasattr (_hdrs : List (String × String)) (_attr : String) : Bool :=
  false

/-- Python item lookup on the headers mapping. -/
def headerGet (hdrs : List (String × String)) (k : String) : String :=
  (lookupA hdrs k).getD ""

/-- HiddenGems.extract_cors (lines 379-384): cors starts empty, and is
only reassigned under the hasattr guard; inside the guard the header value
is comma-split, the wildcard forcing an empty result. -/
def extract_cors (hdrs : List (String × String)) : List String :=
  if headers_hasattr hdrs "Access-Control-Allow-Origin" = true then
    let cors := pySplit (headerGet hdrs "Access-Control-Allow-Origin") ','
    if "*" ∈ cors then [] else cors
  else []

/-- Models tldextract.extract(url).domain for hosts whose public suffix is
the final dot-separated label (the default extractor, private-domain
suffixes excluded): the label just before the suffix. -/
def tldextract_domain (url : String) : String :=
  match (pySplit (urlparse url).netloc '.').reverse with
  | _ :: dom :: _ => dom
  | _ => ""

/-- A Python value that is either a string or a list of strings, mirroring
the dynamic typing of the name variable in what_cloud_worker. -/
inductive PyVal where
  | str (s : String)
  | list (l : List String)
deriving DecidableEq, Repr

/-- The generic cloud base-domain labels listed on line 523. -/
def genericCloudDomains : List String :=
  ["amazonaws", "amazon", "google", "googleapis", "appspot", "azure", "azureedge", "windows"]

/-- Lines 514-526 of what_cloud_worker: the display-name derivation.  The
srv variable is the slice path.split('/')[1:2], a list; the third branch
assigns that list itself to name, not its element. -/
def derive_name (url : String) : PyVal :=
  let domain_name := tldextract_domain url
  let u := urlparse url
  let dom := u.netloc
  let srv := ((pySplit u.path '/').drop 1).take 1
  if (pySplit dom '.').length > 3 then PyVal.str ((pySplit dom '.').headD "")
  else if srv = [] then PyVal.str domain_name
  else if domain_name ∈ genericCloudDomains then PyVal.list srv
  else PyVal.str domain_name

/-- Concrete response for the redirect-to-login scenario: a 200 with an
xml content type whose redirect history starts with a 302 to a login URL. -/
def rLogin : Response :=
  { status_code := 200, contentType := some "application/xml", history := [302], url := "http://x/login" }

/-- Concrete response for the listable-bucket scenario: a 200 with an xml
content type and no redirect history. -/
def rXml : Response :=
  { status_code := 200, contentType := some "application/xml", history := [], url := "http://y/" }

/-- Concrete bucket as built by the worker for an aws candidate. -/
def bSeed : Bucket :=
  mkBucket "acme" "acme.s3.amazonaws.com" "aws" "AWS Bucket"

/-- Concrete grant: READ for canonical user alice. -/
def gAliceRead : Grant :=
  { xsiType := "CanonicalUser", displayName := some "alice", uri := "", id := "", permission := "READ" }

/-- Concrete grant: WRITE for canonical user alice. -/
def gAliceWrite : Grant :=
  { xsiType := "CanonicalUser", displayName := some "alice", uri := "", id := "", permission := "WRITE" }

/-- Concrete grant: an unrecognized Permission value for canonical user
bob. -/
def gBobExotic : Grant :=
  { xsiType := "CanonicalUser", displayName := some "bob", uri := "", id := "", permission := "EXOTIC" }

/-- Concrete bucket for the AWS ACL scenarios. -/
def bAws : Bucket :=
  mkBucket "mybucket" "mybucket.s3.amazonaws.com" "aws" "AWS Bucket"

/-- Second concrete bucket for the AWS ACL scenarios. -/
def bAws2 : Bucket :=
  mkBucket "other" "other.s3.amazonaws.com" "aws" "AWS Bucket"

/-- Concrete crawl node whose collected URLs sort to an order that the
final list(set(...)) then permutes. -/
def node5 : CrawlNode :=
  CrawlNode.mk "http://h" "h" [["http://h/b", "http://h/a"]] []

/-- Concrete crawl node for the dedup scenario: a seed page with two
anchors to the same URL, one relative and one absolute, fed through
extract_links. -/
def nodeAnchors : CrawlNode :=
  CrawlNode.mk "http://h" "h" [extract_links (fun xs => xs.dedup) "http://h" ["page.html", "http://h/page.html"]] []

/-- The sentence of the claim, as a predicate on a set-iteration-order
function: CPython guarantees exactly that list(set(xs)) is duplicate-free
and has the members of xs. -/
def IsSetOrder (so : List String → List String) : Prop :=
  ∀ xs : List String, (so xs).Nodup ∧ ∀ a : String, a ∈ so xs ↔ a ∈ xs

end CloudHunter

namespace CloudHunter

theorem genperm_aux (base : String) (l : List String) (p : List String) :
    l.foldl (fun q affix => q ++ [affix ++ "-" ++ base, affix ++ "." ++ base, affix ++ base] ++ [base ++ "-" ++ affix, base ++ "." ++ affix, base ++ affix]) p = p ++ l.flatMap fun affix => [affix ++ "-" ++ base, affix ++ "." ++ base, affix ++ base, base ++ "-" ++ affix, base ++ "." ++ affix, base ++ affix] := by
  induction l generalizing p with
  | nil => simp
  | cons a l ih => rw [List.foldl_cons, ih]; simp [List.append_assoc]

theorem permSymb_known (perm : String) (symb : Option String) (h : perm ∈ knownPerms) :
    permSymb perm symb = some (claimSymbol perm) := by
  fin_cases h <;> rfl

theorem aws_loop_known (grants : List Grant) :
    ∀ (symb : Option String) (rights : List (String × String)) (risk : Risk),
      (∀ g ∈ grants, g.permission ∈ knownPerms) →
      aws_acl_loop grants symb rights risk = some (claimAccum grants rights, claimRisk grants risk) := by
  induction grants with
  | nil => intro symb rights risk _; rfl
  | cons g rest ih =>
    intro symb rights risk h
    have hg := h g (List.mem_cons_self g rest)
    have hrest := fun x hx => h x (List.mem_cons_of_mem g hx)
    show aws_acl_loop (g :: rest) symb rights risk = _
    unfold aws_acl_loop
    rw [permSymb_known g.permission symb hg]
    exact ih (some (claimSymbol g.permission)) _ _ hrest

theorem redirectPart_no_override (r : Response) (b : Bucket) (h : redirectLogin r = false) :
    (redirectPart r b).state = b.state ∧ (redirectPart r b).risk = b.risk ∧
    ∀ d, d ∈ b.details → d ∈ (redirectPart r b).details := by
  unfold redirectPart
  unfold redirectLogin at h
  by_cases h1 : r.history ≠ [] ∧ (r.history.headD 0 = 301 ∨ r.history.headD 0 = 302)
  · rw [if_pos h1] at h ⊢
    by_cases h2 : strContains r.url "login" = true ∨ strContains r.url "signin" = true
    · rw [if_pos h2] at h
      exact absurd h (by simp)
    · rw [if_neg h2]
      exact ⟨rfl, rfl, fun d hd => List.mem_append_left _ hd⟩
  · rw [if_neg h1]
    exact ⟨rfl, rfl, fun d hd => hd⟩

theorem statusPart_open_xml (baseName : String) (b : Bucket) (r : Response)
    (h200 : r.status_code = 200) (hx : contentTypeHasXml r.contentType = true) :
    (statusPart baseName b r).state = State.OPEN ∧ (statusPart baseName b r).risk = Risk.HIGH ∧
    "LIST" ∈ (statusPart baseName b r).details := by
  unfold statusPart
  rw [if_pos h200, if_pos hx]
  exact ⟨rfl, rfl, List.mem_append_right _ (by simp)⟩

end CloudHunter

namespace CloudHunter

/-- C1 counterexample: for the aws candidate acme.s3.amazonaws.com with a
failed DNS check, the worker yields no result at all — even when an HTTP
response would have been available — rather than a DOMAIN-classified
bucket. -/
theorem c1_counterexample :
    worker_step "AWS Bucket" "acme.s3.amazonaws.com" "acme" "aws" "acme" false (some rXml) = none := by
  rfl

/-- C1 (amended): when the DNS existence check fails, HTTP is not
attempted and the pipeline yields no result for the candidate; a result
with state DOMAIN arises only when DNS succeeds and the HTTP probe fails,
and then only for cloud azure — for any other cloud a failed HTTP probe
also yields no result. -/
theorem c1_dns_failure_yields_nothing (srv dom name cloud baseName : String) (hr : Option Response) :
    worker_step srv dom name cloud baseName false hr = none ∧
    (cloud ≠ "azure" → worker_step srv dom name cloud baseName true none = none) ∧
    worker_step srv dom name "azure" baseName true none = some { mkBucket name dom "azure" srv with state := State.DOMAIN } := by
  refine ⟨rfl, fun h => ?_, ?_⟩
  · simp [worker_step, h]
  · simp [worker_step, processStatus]

/-- C1 witness: the amended rule evaluated on a concrete aws candidate and
a concrete azure candidate. -/
theorem c1_witness :
    worker_step "AWS Bucket" "d" "n" "aws" "b" false none = none ∧
    worker_step "AWS Bucket" "d" "n" "aws" "b" true none = none ∧
    worker_step "Storage Blobs" "d" "n" "azure" "b" true none = some { mkBucket "n" "d" "azure" "Storage Blobs" with state := State.DOMAIN } := by
  have h1 := c1_dns_failure_yields_nothing "AWS Bucket" "d" "n" "aws" "b" none
  have h2 := c1_dns_failure_yields_nothing "Storage Blobs" "d" "n" "azure" "b" none
  exact ⟨h1.1, h1.2.1 (by decide), h2.2.2⟩

/-- C2 counterexample: on base acme and affix dev the generator emits the
affix-prefixed combinations before the base-prefixed ones, not the claimed
order. -/
theorem c2_counterexample :
    generate_permutations "acme" ["dev"] = ["acme", "dev-acme", "dev.acme", "devacme", "acme-dev", "acme.dev", "acmedev"] ∧
    generate_permutations "acme" ["dev"] ≠ ["acme", "acme-dev", "acme.dev", "acmedev", "dev-acme", "dev.acme", "devacme"] := by
  exact ⟨by decide, by decide⟩

/-- C2 (amended): generate_permutations returns the base name followed,
for each affix in list order, by the six combinations in this order:
affix-base, affix.base, affixbase, base-affix, base.affix, baseaffix. -/
theorem c2_permutation_order (base : String) (lines : List String) :
    generate_permutations base lines = base :: (lines.flatMap fun affix => [affix ++ "-" ++ base, affix ++ "." ++ base, affix ++ base, base ++ "-" ++ affix, base ++ "." ++ affix, base ++ affix]) := by
  unfold generate_permutations
  rw [genperm_aux]
  rfl

/-- C3: whenever the first redirect hop was a 301 or 302, process_status
appends the detail Redirect followed by the final URL; and when the final
URL contains login or signin as a substring, the final classification is
state PRIVATE and risk LOW, overriding whatever the status-code rules
set. -/
theorem c3_redirect_login_override (baseName : String) (b : Bucket) (r : Response)
    (hne : r.history ≠ []) (hcode : r.history.headD 0 = 301 ∨ r.history.headD 0 = 302) :
    (∃ l, (processStatus baseName b (some r)).details = l ++ ["Redirect " ++ r.url]) ∧
    (strContains r.url "login" = true ∨ strContains r.url "signin" = true →
      (processStatus baseName b (some r)).state = State.PRIVATE ∧
      (processStatus baseName b (some r)).risk = Risk.LOW) := by
  have hp : processStatus baseName b (some r) = redirectPart r (statusPart baseName b r) := rfl
  rw [hp]
  unfold redirectPart
  rw [if_pos ⟨hne, hcode⟩]
  by_cases hl : strContains r.url "login" = true ∨ strContains r.url "signin" = true
  · rw [if_pos hl]
    exact ⟨⟨(statusPart baseName b r).details, rfl⟩, fun _ => ⟨rfl, rfl⟩⟩
  · rw [if_neg hl]
    exact ⟨⟨(statusPart baseName b r).details, rfl⟩, fun h => absurd h hl⟩

/-- C3 witness: a 200 application/xml response whose first redirect hop is
a 302 to a login URL ends PRIVATE with risk LOW, with the redirect detail
appended, although the un-overridden classification was OPEN and HIGH. -/
theorem c3_witness :
    (∃ l, (processStatus "acme" bSeed (some rLogin)).details = l ++ ["Redirect " ++ rLogin.url]) ∧
    (processStatus "acme" bSeed (some rLogin)).state = State.PRIVATE ∧
    (processStatus "acme" bSeed (some rLogin)).risk = Risk.LOW := by
  have h := c3_redirect_login_override "acme" bSeed rLogin (by decide) (by decide)
  have h2 := h.2 (Or.inl (by decide))
  exact ⟨h.1, h2.1, h2.2⟩

/-- C4: a 200 response whose Content-Type contains application/xml and
which is not a redirect to a login or signin URL classifies as state OPEN,
risk HIGH, with LIST among the details. -/
theorem c4_open_listable (baseName : String) (b : Bucket) (r : Response)
    (h200 : r.status_code = 200) (hx : contentTypeHasXml r.contentType = true)
    (hnl : redirectLogin r = false) :
    (processStatus baseName b (some r)).state = State.OPEN ∧
    (processStatus baseName b (some r)).risk = Risk.HIGH ∧
    "LIST" ∈ (processStatus baseName b (some r)).details := by
  have hp : processStatus baseName b (some r) = redirectPart r (statusPart baseName b r) := rfl
  have hs := statusPart_open_xml baseName b r h200 hx
  have hr := redirectPart_no_override r (statusPart baseName b r) hnl
  rw [hp]
  exact ⟨hr.1.trans hs.1, hr.2.1.trans hs.2.1, hr.2.2 _ hs.2.2⟩

/-- C4 witness: the listable-bucket rule evaluated on a concrete 200
application/xml response without redirects. -/
theorem c4_witness :
    (processStatus "acme" bSeed (some rXml)).state = State.OPEN ∧
    (processStatus "acme" bSeed (some rXml)).risk = Risk.HIGH ∧
    "LIST" ∈ (processStatus "acme" bSeed (some rXml)).details := by
  exact c4_open_listable "acme" bSeed rXml (by decide) (by decide) (by decide)

end CloudHunter

namespace CloudHunter

/-- C5: list_urls does deduplicate — under any admissible iteration order
of the final list(set(...)) each normalized URL occurs at most once, and
the relative/absolute anchor pair collapses to a single entry — but the
returned list is not sorted: the sort happens before the set conversion,
whose hash-dependent order is what the caller receives, as the reversed
admissible order on node5 shows. -/
theorem c5_sorted_claim_fails :
    IsSetOrder (fun xs => xs.dedup.reverse) ∧
    list_urls (fun xs => xs.dedup.reverse) node5 false false = ["http://h/b", "http://h/a"] ∧
    isSortedB ["http://h/b", "http://h/a"] = false ∧
    (∀ (n : CrawlNode) (scope fq : Bool), (list_urls (fun xs => xs.dedup) n scope fq).Nodup) ∧
    (list_urls (fun xs => xs.dedup) nodeAnchors false false).count "http://h/page.html" = 1 := by
  refine ⟨fun xs => ⟨?_, fun a => ?_⟩, by decide, by decide, fun n scope fq => ?_, by decide⟩
  · exact List.nodup_reverse.mpr xs.nodup_dedup
  · simp [List.mem_reverse, List.mem_dedup]
  · cases n with
    | mk b d u c =>
      show (List.dedup _).Nodup
      exact List.nodup_dedup _

/-- C6: on the URL http://s3.amazonaws.com/mybucket (three host labels,
registrable-domain label amazonaws, path segment mybucket) the derived
name is the one-element list made of the first path segment — the slice
path.split('/')[1:2] itself — and not a string at all, contrary to the
claimed single name string. -/
theorem c6_name_is_list :
    derive_name "http://s3.amazonaws.com/mybucket" = PyVal.list ["mybucket"] ∧
    ∀ s : String, derive_name "http://s3.amazonaws.com/mybucket" ≠ PyVal.str s := by
  have h1 : derive_name "http://s3.amazonaws.com/mybucket" = PyVal.list ["mybucket"] := by decide
  refine ⟨h1, fun s hs => ?_⟩
  rw [h1] at hs
  exact PyVal.noConfusion hs

/-- C7: because hasattr never sees header names as attributes of the
headers mapping, extract_cors returns the empty list on every input —
including a headers mapping that does carry an Access-Control-Allow-Origin
value, whose comma-split the claim expected. -/
theorem c7_cors_never_extracted :
    (∀ hdrs : List (String × String), extract_cors hdrs = []) ∧
    extract_cors [("Access-Control-Allow-Origin", "https://a.com,https://b.com")] = [] ∧
    pySplit "https://a.com,https://b.com" ',' = ["https://a.com", "https://b.com"] := by
  exact ⟨fun _ => rfl, rfl, by decide⟩

/-- C8: on any grant list whose Permissions are all recognized, _aws_acl
returns the bucket whose appended detail lines are exactly one line
grantee [symbols] per grantee in discovery order, with the symbols
accumulated per grantee in discovery order and deduplicated per grantee,
as expressed by the claim-side accumulator claimAccum. -/
theorem c8_aws_acl_accumulates (grants : List Grant) (b : Bucket)
    (h : ∀ g ∈ grants, g.permission ∈ knownPerms) :
    aws_acl grants b = some { b with risk := claimRisk grants b.risk, details := b.details ++ (claimAccum grants []).map fun p => p.1 ++ " [" ++ p.2 ++ "]" } := by
  unfold aws_acl
  rw [aws_loop_known grants none [] b.risk h]

/-- C8 witness: one READ grant for alice followed by one WRITE grant for
alice yields the single detail alice [RW]. -/
theorem c8_witness :
    aws_acl [gAliceRead, gAliceWrite] bAws = some { bAws with risk := Risk.HIGH, details := ["alice [RW]"] } := by
  have h := c8_aws_acl_accumulates [gAliceRead, gAliceWrite] bAws (by decide)
  rw [h]
  decide

/-- C9: get_rights dispatches the azure enumerator for cloud azure
whatever the state; dispatches the google and aws enumerators exactly when
the state is OPEN; and dispatches nothing for cloud generic. -/
theorem c9_get_rights_dispatch :
    (∀ s : State, get_rights "azure" s = AclAction.azure) ∧
    (∀ s : State, get_rights "google" s = AclAction.google ↔ s = State.OPEN) ∧
    (∀ s : State, get_rights "aws" s = AclAction.aws ↔ s = State.OPEN) ∧
    (∀ s : State, get_rights "generic" s = AclAction.skip) := by
  refine ⟨fun s => ?_, fun s => ?_, fun s => ?_, fun s => ?_⟩ <;> cases s <;> decide

/-- C10: _aws_acl is well-defined exactly under the precondition that
every Permission is recognized: with all Permissions recognized it
returns a result; when the first grant carries any other Permission the
symb variable is read before assignment and the operation fails; and when
a later grant does, the previous grant symbol is silently reused for the
wrong grantee, as the concrete READ-then-EXOTIC list shows with bob
receiving the R of the preceding alice grant. -/
theorem c10_symbol_precondition :
    (∀ (grants : List Grant) (b : Bucket), (∀ g ∈ grants, g.permission ∈ knownPerms) → (aws_acl grants b).isSome = true) ∧
    (∀ (g : Grant) (rest : List Grant) (b : Bucket), g.permission ∉ knownPerms → aws_acl (g :: rest) b = none) ∧
    aws_acl [gAliceRead, gBobExotic] bAws2 = some { bAws2 with details := ["alice [R]", "bob [R]"] } := by
  refine ⟨fun grants b h => ?_, fun g rest b h => ?_, by decide⟩
  · unfold aws_acl
    rw [aws_loop_known grants none [] b.risk h]
    rfl
  · have h1 : ¬(g.permission = "READ" ∨ g.permission = "READ_ACP") := fun hc =>
      h (by rcases hc with hc | hc <;> rw [hc] <;> decide)
    have h2 : ¬(g.permission = "WRITE" ∨ g.permission = "WRITE_ACL") := fun hc =>
      h (by rcases hc with hc | hc <;> rw [hc] <;> decide)
    have h3 : ¬(g.permission = "FULL_CONTROL") := fun hc => h (by rw [hc]; decide)
    have hps : permSymb g.permission none = none := by
      unfold permSymb
      rw [if_neg h1, if_neg h2, if_neg h3]
    unfold aws_acl aws_acl_loop
    rw [hps]

/-- C10 witness: the precondition and the first-grant failure evaluated on
concrete grant lists. -/
theorem c10_witness :
    (aws_acl [gAliceRead] bAws2).isSome = true ∧ aws_acl [gBobExotic] bAws2 = none := by
  exact ⟨c10_symbol_precondition.1 [gAliceRead] bAws2 (by decide), c10_symbol_precondition.2.1 gBobExotic [] bAws2 (by decide)⟩

end CloudHunter
